import Mathlib

/-!
Verification of the ScreenShareCast signaling server.

The definitions below are a shallow embedding of the server-side signaling
code (the `MemStorage` persistence class and the WebSocket route handlers
`handleCreateSession`, `handleJoinSession`, `handleOffer`, `handleAnswer`,
`handleIceCandidate`, `handleDisconnect`, `notifySessionParticipants`, the
`connection` handler and its `close` handler).

JavaScript `Map`s are embedded as association lists in insertion order
(JS `Map` iterates in insertion order, and `Map.set` on an existing key
keeps its position); JS `Set`s of client ids are lists without duplicates
in insertion order.  Every message the server writes to some client's
WebSocket is recorded in a global `outbox` of (recipient, envelope) pairs,
in send order.
-/

namespace ScreenShareCast

/-- One JS `Map` lookup: `m.get(k)` (keys are unique in a JS `Map`). -/
def mapGet {α : Type} : List (String × α) → String → Option α
  | [], _ => none
  | p :: rest, k => if p.1 == k then some p.2 else mapGet rest k

/-- One JS `Map` update: `m.set(k, v)` keeps the position of an existing key
and appends a fresh key at the end. -/
def mapSet {α : Type} : List (String × α) → String → α → List (String × α)
  | [], k, v => [(k, v)]
  | p :: rest, k, v => if p.1 == k then (k, v) :: rest else p :: mapSet rest k v

/-- One JS `Map` removal: `m.delete(k)`. -/
def mapDelete {α : Type} : List (String × α) → String → List (String × α)
  | [], _ => []
  | p :: rest, k => if p.1 == k then rest else p :: mapDelete rest k

/-- A row of the `sessions` map of `MemStorage`: the fields of the stored
`Session` record that the signaling code reads or writes
(`id`, `sessionCode`, `hostId`, `active`; `createdAt` is never consulted). -/
structure StoredSession where
  id : Nat
  sessionCode : String
  hostId : String
  active : Nat
  deriving Repr, DecidableEq

/-- The `MemStorage` state: stored sessions in insertion order plus the
`sessionCurrentId` counter. -/
structure MemStorage where
  sessions : List StoredSession
  sessionCurrentId : Nat
  deriving Repr, DecidableEq

def MemStorage.empty : MemStorage := ⟨[], 1⟩

/-- `MemStorage.createSession`: assigns the next id, stores the session with
`active: 1`, returns it. -/
def MemStorage.createSession (st : MemStorage) (sessionCode hostId : String) :
    StoredSession × MemStorage :=
  let s : StoredSession := ⟨st.sessionCurrentId, sessionCode, hostId, 1⟩
  (s, ⟨st.sessions ++ [s], st.sessionCurrentId + 1⟩)

/-- `MemStorage.getSessionByCode`: `Array.from(this.sessions.values()).find(...)`,
i.e. the first stored session (in insertion order) whose `sessionCode` matches. -/
def MemStorage.getSessionByCode (st : MemStorage) (code : String) : Option StoredSession :=
  st.sessions.find? (fun s => s.sessionCode == code)

/-- `MemStorage.updateSessionStatus`: looks the session up by id and replaces
it in place with the `active` field overwritten. -/
def MemStorage.updateSessionStatus (st : MemStorage) (id active : Nat) :
    Option StoredSession × MemStorage :=
  match st.sessions.find? (fun s => s.id == id) with
  | none => (none, st)
  | some s =>
    let s1 : StoredSession := { s with active := active }
    (some s1, { st with sessions := st.sessions.map (fun t => if t.id == id then s1 else t) })

/-- The `data` object of an `offer` / `answer` / `ice_candidate` frame.  The
server destructures `targetId` and forwards the whole object; the negotiation
payload itself is opaque (`payload`) and the sender may or may not have put a
`fromId` field into it. -/
structure SignalData where
  payload : String
  targetId : String
  fromId : Option String
  deriving Repr, DecidableEq

/-- The envelopes the server writes to a WebSocket (outbound `{type, data}`
frames). -/
inductive Envelope where
  | clientIdMsg (clientId : String)
  | sessionCreated (sessionCode : Option String) (success : Bool) (error : Option String)
  | sessionJoined (success : Bool) (sessionCode hostId : Option String) (error : Option String)
  | clientJoined (clientId sessionCode : String)
  | participantDisconnected (clientId : String)
  | participantLeft (clientId : String)
  | offerMsg (data : SignalData)
  | answerMsg (data : SignalData)
  | iceCandidateMsg (data : SignalData)
  deriving Repr, DecidableEq

/-- The server process state: the global `clients` map (client id ↦ whether
its WebSocket's `readyState` is `OPEN`), the global in-memory `sessions` map
(session code ↦ member set), the `storage` singleton, and the log of all
messages sent so far. -/
structure ServerState where
  clients : List (String × Bool)
  sessions : List (String × List String)
  storage : MemStorage
  outbox : List (String × Envelope)
  deriving Repr, DecidableEq

def initState : ServerState := ⟨[], [], MemStorage.empty, []⟩

/-- JS `Set.add`: append only if absent. -/
def setAdd (s : List String) (c : String) : List String :=
  if s.contains c then s else s ++ [c]

/-- `wss.on("connection")`: assign the (fresh) client id, register the
socket, send the `client_id` envelope. -/
def onConnection (st : ServerState) (clientId : String) : ServerState :=
  { st with
    clients := mapSet st.clients clientId true
    outbox := st.outbox ++ [(clientId, Envelope.clientIdMsg clientId)] }

/-- `handleCreateSession`.  `storageFails` stands for
`storage.createSession` rejecting (it is always `false` for `MemStorage`,
which cannot throw, but the handler's `catch` branch exists for a failing
persistence backend). -/
def handleCreateSession (st : ServerState) (clientId sessionCode : String)
    (storageFails : Bool) : ServerState :=
  if (mapGet st.sessions sessionCode).isSome then
    { st with outbox := st.outbox ++
        [(clientId, Envelope.sessionCreated none false (some "Session code already exists"))] }
  else
    let st1 := { st with sessions := mapSet st.sessions sessionCode [clientId] }
    if storageFails then
      { st1 with outbox := st1.outbox ++
          [(clientId, Envelope.sessionCreated none false (some "Failed to create session"))] }
    else
      { st1 with
        storage := (st1.storage.createSession sessionCode clientId).2
        outbox := st1.outbox ++
          [(clientId, Envelope.sessionCreated (some sessionCode) true none)] }

/-- `handleJoinSession`. -/
def handleJoinSession (st : ServerState) (clientId sessionCode : String) : ServerState :=
  match st.storage.getSessionByCode sessionCode with
  | none =>
      { st with outbox := st.outbox ++
          [(clientId, Envelope.sessionJoined false none none (some "Session not found or inactive"))] }
  | some session =>
      if session.active != 1 then
        { st with outbox := st.outbox ++
            [(clientId, Envelope.sessionJoined false none none (some "Session not found or inactive"))] }
      else
        let members := (mapGet st.sessions sessionCode).getD []
        let st1 := { st with sessions := mapSet st.sessions sessionCode (setAdd members clientId) }
        let st2 :=
          if mapGet st1.clients session.hostId == some true then
            { st1 with outbox := st1.outbox ++
                [(session.hostId, Envelope.clientJoined clientId sessionCode)] }
          else st1
        { st2 with outbox := st2.outbox ++
            [(clientId, Envelope.sessionJoined true (some sessionCode) (some session.hostId) none)] }

/-- `handleOffer`: forward the `data` object verbatim to `targetId` if that
client has a live `OPEN` socket, else do nothing. -/
def handleOffer (st : ServerState) (data : SignalData) : ServerState :=
  if mapGet st.clients data.targetId == some true then
    { st with outbox := st.outbox ++ [(data.targetId, Envelope.offerMsg data)] }
  else st

/-- `handleAnswer`. -/
def handleAnswer (st : ServerState) (data : SignalData) : ServerState :=
  if mapGet st.clients data.targetId == some true then
    { st with outbox := st.outbox ++ [(data.targetId, Envelope.answerMsg data)] }
  else st

/-- `handleIceCandidate`. -/
def handleIceCandidate (st : ServerState) (data : SignalData) : ServerState :=
  if mapGet st.clients data.targetId == some true then
    { st with outbox := st.outbox ++ [(data.targetId, Envelope.iceCandidateMsg data)] }
  else st

/-- `notifySessionParticipants`: send `e` to every member of the session
whose socket is live and `OPEN`. -/
def notifySessionParticipants (st : ServerState) (sessionCode : String) (e : Envelope) :
    ServerState :=
  match mapGet st.sessions sessionCode with
  | none => st
  | some members =>
      { st with outbox := st.outbox ++
          (members.filterMap (fun c =>
            if mapGet st.clients c == some true then some (c, e) else none)) }

/-- `handleDisconnect`: remove the sender from the named session, notify the
remaining members with `participant_disconnected`, and if the session is now
empty delete it from the live table and mark the stored session inactive. -/
def handleDisconnect (st : ServerState) (clientId sessionCode : String) : ServerState :=
  match mapGet st.sessions sessionCode with
  | none => st
  | some members =>
      let members1 := members.filter (fun c => c != clientId)
      let st1 := { st with sessions := mapSet st.sessions sessionCode members1 }
      let st2 := notifySessionParticipants st1 sessionCode
        (Envelope.participantDisconnected clientId)
      if members1.length == 0 then
        let st3 := { st2 with sessions := mapDelete st2.sessions sessionCode }
        match st3.storage.getSessionByCode sessionCode with
        | none => st3
        | some session =>
            { st3 with storage := (st3.storage.updateSessionStatus session.id 0).2 }
      else st2

/-- The body of the `for (const [sessionId, clientSet] of sessions.entries())`
loop of the `close` handler, for one session code: if the departing client is
a member, remove it, notify the remaining members with `participant_left`,
and delete the session if it is now empty.  The storage is never touched. -/
def closeOneSession (clientId : String) (st : ServerState) (sessionCode : String) :
    ServerState :=
  match mapGet st.sessions sessionCode with
  | none => st
  | some members =>
      if members.contains clientId then
        let members1 := members.filter (fun c => c != clientId)
        let st1 := { st with sessions := mapSet st.sessions sessionCode members1 }
        let st2 := notifySessionParticipants st1 sessionCode
          (Envelope.participantLeft clientId)
        if members1.length == 0 then
          { st2 with sessions := mapDelete st2.sessions sessionCode }
        else st2
      else st

/-- `ws.on("close")`: run the loop body over every session, then
`clients.delete(clientId)`. -/
def onClose (st : ServerState) (clientId : String) : ServerState :=
  let st1 := (st.sessions.map (fun p => p.1)).foldl (closeOneSession clientId) st
  { st1 with clients := mapDelete st1.clients clientId }

/-!  Concrete runs of the coordinator used below.  -/

/-- Client A creates a session, A's transport closes (last member), client B
connects and joins with the old code. -/
def traceC1 : ServerState :=
  handleJoinSession
    (onConnection
      (onClose (handleCreateSession (onConnection initState "A") "A" "110000" false) "A") "B")
    "B" "110000"

/-- Client A creates a session while the persistence call fails. -/
def traceC2 : ServerState :=
  handleCreateSession (onConnection initState "A") "A" "210000" true

/-- A and B are connected; A forwards an offer to B whose payload carries no
`fromId`. -/
def traceC3 : ServerState :=
  handleOffer (onConnection (onConnection initState "A") "B")
    ⟨"sdp-offer", "B", none⟩

/-- A creates a session, B joins it, then B's transport closes. -/
def traceC4 : ServerState :=
  onClose
    (handleJoinSession
      (onConnection (handleCreateSession (onConnection initState "A") "A" "410000" false) "B")
      "B" "410000")
    "B"

/-- A creates a session, B joins it, then the host A leaves via an explicit
`disconnect` while B stays. -/
def traceC5 : ServerState :=
  handleDisconnect
    (handleJoinSession
      (onConnection (handleCreateSession (onConnection initState "A") "A" "510000" false) "B")
      "B" "510000")
    "A" "510000"

/-- A creates a session, A's transport closes, B connects and joins the old
code (the host has no live connection at join time). -/
def traceC8 : ServerState :=
  handleJoinSession
    (onConnection
      (onClose (handleCreateSession (onConnection initState "A") "A" "810000" false) "A") "B")
    "B" "810000"

/-- A server state whose only stored session is inactive (its live session
entry is gone). -/
def wit7st : ServerState :=
  { clients := [("WH", true)], sessions := [],
    storage := ⟨[⟨1, "700100", "WH", 0⟩], 2⟩, outbox := [] }

/-- A server state holding one live session with host WA. -/
def wit6st : ServerState :=
  handleCreateSession (onConnection initState "WA") "WA" "600100" false

/-- A server state where client WX exists but its socket is not OPEN. -/
def wit9st : ServerState :=
  { clients := [("WX", false)], sessions := [], storage := MemStorage.empty, outbox := [] }

/-- A storage holding an old inactive and a newer active session under the
same code. -/
def wit10st : MemStorage :=
  ⟨[⟨1, "100700", "WA", 0⟩, ⟨2, "100700", "WB", 1⟩], 3⟩

/-- A server state holding one live two-member session and its stored row. -/
def wit5st : ServerState :=
  { clients := [("A", true), ("B", true)], sessions := [("510100", ["A", "B"])],
    storage := ⟨[⟨1, "510100", "A", 1⟩], 2⟩, outbox := [] }

/-- A server state where host WA created a session and then its transport
closed, leaving the stored row active. -/
def wit1st : ServerState :=
  handleCreateSession (onConnection initState "WA") "WA" "110100" false

/-- A server state with a stored active session whose host WH is connected,
plus a live member set. -/
def wit8st : ServerState :=
  { clients := [("WH", true)], sessions := [("810100", ["WH"])],
    storage := ⟨[⟨1, "810100", "WH", 1⟩], 2⟩, outbox := [] }

/-- A server state with two live sessions; WB is a member of both (dual
membership) and all members are connected. -/
def wit4st : ServerState :=
  { clients := [("WA", true), ("WB", true), ("WC", true)],
    sessions := [("410100", ["WA", "WB"]), ("410200", ["WB", "WC"])],
    storage := ⟨[⟨1, "410100", "WA", 1⟩, ⟨2, "410200", "WC", 1⟩], 3⟩, outbox := [] }

/-!  Helper lemmas about the map embedding and the handlers.  -/

lemma mapGet_mapSet_self {α : Type} (m : List (String × α)) (k : String) (v : α) :
    mapGet (mapSet m k v) k = some v := by
  induction m with
  | nil => simp [mapSet, mapGet]
  | cons p rest ih =>
      by_cases h : p.1 == k
      · simp [mapSet, mapGet, h]
      · simp [mapSet, mapGet, h, ih]

lemma notify_storage (st : ServerState) (code : String) (e : Envelope) :
    (notifySessionParticipants st code e).storage = st.storage := by
  unfold notifySessionParticipants
  split <;> rfl

lemma notify_clients (st : ServerState) (code : String) (e : Envelope) :
    (notifySessionParticipants st code e).clients = st.clients := by
  unfold notifySessionParticipants
  split <;> rfl

lemma closeOneSession_storage (c : String) (st : ServerState) (code : String) :
    (closeOneSession c st code).storage = st.storage := by
  unfold closeOneSession
  split
  · rfl
  · split
    · dsimp only
      split
      · simp [notify_storage]
      · simp [notify_storage]
    · rfl

lemma foldl_close_storage (c : String) (codes : List String) (st : ServerState) :
    (codes.foldl (closeOneSession c) st).storage = st.storage := by
  induction codes generalizing st with
  | nil => rfl
  | cons x xs ih => simp [List.foldl, ih, closeOneSession_storage]

lemma onClose_storage (st : ServerState) (c : String) :
    (onClose st c).storage = st.storage := by
  simp [onClose, foldl_close_storage]

lemma find?_id_self (l : List StoredSession)
    (hinc : List.Pairwise (fun a b => a.id < b.id) l) (s : StoredSession) (hs : s ∈ l) :
    l.find? (fun x => x.id == s.id) = some s := by
  induction l with
  | nil => cases hs
  | cons h tl ih =>
      rcases List.mem_cons.mp hs with rfl | hmem
      · simp [List.find?_cons]
      · have hlt : h.id < s.id := (List.pairwise_cons.mp hinc).1 s hmem
        have hne : (h.id == s.id) = false := by
          simp [Nat.ne_of_lt hlt]
        simp [List.find?_cons, hne, ih (List.pairwise_cons.mp hinc).2 hmem]

lemma find?_code_min (l : List StoredSession) (code : String)
    (hinc : List.Pairwise (fun a b => a.id < b.id) l)
    (t : StoredSession) (ht : t ∈ l) (htc : t.sessionCode = code) :
    ∃ s, l.find? (fun x => x.sessionCode == code) = some s ∧ s.sessionCode = code ∧
      ∀ u ∈ l, u.sessionCode = code → s.id ≤ u.id := by
  induction l with
  | nil => cases ht
  | cons h tl ih =>
      by_cases hc : (h.sessionCode == code) = true
      · refine ⟨h, ?_, eq_of_beq hc, ?_⟩
        · simp [List.find?_cons, hc]
        · intro u hu huc
          rcases List.mem_cons.mp hu with rfl | hmem
          · exact le_refl _
          · exact le_of_lt ((List.pairwise_cons.mp hinc).1 u hmem)
      · have htl : t ∈ tl := by
          rcases List.mem_cons.mp ht with rfl | hmem
          · exact absurd (by simp [htc]) hc
          · exact hmem
        obtain ⟨s, hfind, hsc, hmin⟩ := ih (List.pairwise_cons.mp hinc).2 htl
        refine ⟨s, ?_, hsc, ?_⟩
        · simp [List.find?_cons, hc, hfind]
        · intro u hu huc
          rcases List.mem_cons.mp hu with rfl | hmem
          · exact absurd (by simp [huc]) hc
          · exact hmin u hmem huc

lemma find?_code_after_deactivate (l : List StoredSession) (code : String)
    (hinc : List.Pairwise (fun a b => a.id < b.id) l)
    (s : StoredSession) (hfind : l.find? (fun x => x.sessionCode == code) = some s) :
    (l.map (fun t => if t.id == s.id then { s with active := 0 } else t)).find?
      (fun x => x.sessionCode == code) = some { s with active := 0 } := by
  induction l with
  | nil => simp at hfind
  | cons h tl ih =>
      by_cases hc : (h.sessionCode == code) = true
      · have hs : s = h := by
          have h1 := hfind
          rw [@List.find?_cons_of_pos _ (fun x => x.sessionCode == code) h tl hc] at h1
          exact (Option.some.inj h1).symm
        simp only [hs, List.map_cons, beq_self_eq_true, if_true]
        exact List.find?_cons_of_pos _ (by simpa using hc)
      · have hfind1 : tl.find? (fun x => x.sessionCode == code) = some s := by
          rw [@List.find?_cons_of_neg _ (fun x => x.sessionCode == code) h tl hc] at hfind
          exact hfind
        have hmem : s ∈ tl := List.mem_of_find?_eq_some hfind1
        have hlt : h.id < s.id := (List.pairwise_cons.mp hinc).1 s hmem
        have hne2 : ¬ ((h.id == s.id) = true) := by simp [Nat.ne_of_lt hlt]
        simp only [List.map_cons]
        rw [if_neg hne2]
        rw [@List.find?_cons_of_neg _ (fun x => x.sessionCode == code) h _ hc]
        exact ih (List.pairwise_cons.mp hinc).2 hfind1

lemma closeOneSession_spec (c : String) (st : ServerState) (code : String) (mem : List String)
    (hget : mapGet st.sessions code = some mem) (hc : mem.contains c = true) :
    (closeOneSession c st code).outbox = st.outbox ++
      ((mem.filter (fun x => x != c)).filterMap (fun m =>
        if mapGet st.clients m == some true then some (m, Envelope.participantLeft c) else none))
    ∧ (closeOneSession c st code).clients = st.clients := by
  unfold closeOneSession
  rw [hget]
  dsimp only
  rw [if_pos hc]
  constructor
  · split
    · simp [notifySessionParticipants, mapGet_mapSet_self]
    · simp [notifySessionParticipants, mapGet_mapSet_self]
  · split
    · simp [notifySessionParticipants, mapGet_mapSet_self]
    · simp [notifySessionParticipants, mapGet_mapSet_self]

lemma notify_sessions (st : ServerState) (code : String) (e : Envelope) :
    (notifySessionParticipants st code e).sessions = st.sessions := by
  unfold notifySessionParticipants
  split <;> rfl

lemma closeOneSession_clients (c : String) (st : ServerState) (code : String) :
    (closeOneSession c st code).clients = st.clients := by
  unfold closeOneSession
  split
  · rfl
  · split
    · dsimp only
      split
      · simp [notify_clients]
      · simp [notify_clients]
    · rfl

lemma mapGet_mapSet_ne {α : Type} (m : List (String × α)) (k k1 : String) (v : α)
    (h : k1 ≠ k) : mapGet (mapSet m k v) k1 = mapGet m k1 := by
  induction m with
  | nil =>
      have h2 : (k == k1) = false := beq_eq_false_iff_ne.mpr (Ne.symm h)
      simp [mapSet, mapGet, h2]
  | cons p rest ih =>
      by_cases hp : (p.1 == k) = true
      · have hpk : p.1 = k := eq_of_beq hp
        have h2 : (k == k1) = false := beq_eq_false_iff_ne.mpr (Ne.symm h)
        simp [mapSet, mapGet, hp, hpk, h2]
      · simp only [mapSet, hp, Bool.false_eq_true, if_false, mapGet]
        by_cases hq : (p.1 == k1) = true
        · simp [mapGet, hq]
        · simp [mapGet, hq, ih]

lemma mapGet_mapDelete_ne {α : Type} (m : List (String × α)) (k k1 : String)
    (h : k1 ≠ k) : mapGet (mapDelete m k) k1 = mapGet m k1 := by
  induction m with
  | nil => rfl
  | cons p rest ih =>
      by_cases hp : (p.1 == k) = true
      · have hpk : p.1 = k := eq_of_beq hp
        have h2 : (p.1 == k1) = false := by
          rw [hpk]
          exact beq_eq_false_iff_ne.mpr (Ne.symm h)
        simp [mapDelete, mapGet, hp, h2]
      · simp only [mapDelete, hp, Bool.false_eq_true, if_false, mapGet]
        by_cases hq : (p.1 == k1) = true
        · simp [hq]
        · simp [hq, ih]

lemma closeOneSession_sessions_ne (c : String) (st : ServerState) (code k : String)
    (hk : k ≠ code) :
    mapGet (closeOneSession c st code).sessions k = mapGet st.sessions k := by
  unfold closeOneSession
  split
  · rfl
  · split
    · dsimp only
      split
      · simp [notify_sessions, mapGet_mapDelete_ne _ _ _ hk, mapGet_mapSet_ne _ _ _ _ hk]
      · simp [notify_sessions, mapGet_mapSet_ne _ _ _ _ hk]
    · rfl

lemma closeOneSession_not_member (c : String) (st : ServerState) (code : String)
    (mem : List String) (hget : mapGet st.sessions code = some mem)
    (hc : mem.contains c = false) : closeOneSession c st code = st := by
  unfold closeOneSession
  rw [hget]
  dsimp only
  rw [hc]
  rfl

lemma mapGet_of_nodup {α : Type} (m : List (String × α))
    (hnd : (m.map (fun p => p.1)).Nodup) (p : String × α) (hp : p ∈ m) :
    mapGet m p.1 = some p.2 := by
  induction m with
  | nil => cases hp
  | cons q rest ih =>
      rcases List.mem_cons.mp hp with rfl | hmem
      · simp [mapGet]
      · have hq1 : q.1 ∉ rest.map (fun p => p.1) := (List.nodup_cons.mp hnd).1
        have hne : (q.1 == p.1) = false := by
          refine beq_eq_false_iff_ne.mpr ?_
          intro h
          exact hq1 (h ▸ List.mem_map_of_mem (fun p => p.1) hmem)
        simp [mapGet, hne, ih (List.nodup_cons.mp hnd).2 hmem]

lemma foldl_close_spec (c : String) (ents : List (String × List String)) (st : ServerState)
    (hnd : (ents.map (fun p => p.1)).Nodup)
    (hget : ∀ p ∈ ents, mapGet st.sessions p.1 = some p.2) :
    (((ents.map (fun p => p.1)).foldl (closeOneSession c) st).outbox = st.outbox ++
      (ents.flatMap (fun p =>
        if p.2.contains c = true then
          ((p.2.filter (fun x => x != c)).filterMap (fun m =>
            if mapGet st.clients m == some true then
              some (m, Envelope.participantLeft c) else none))
        else [])))
    ∧ ((ents.map (fun p => p.1)).foldl (closeOneSession c) st).clients = st.clients := by
  induction ents generalizing st with
  | nil => simp
  | cons p rest ih =>
      have hget0 : mapGet st.sessions p.1 = some p.2 := hget p (by simp)
      have hclients1 : (closeOneSession c st p.1).clients = st.clients :=
        closeOneSession_clients c st p.1
      have hnd0 : p.1 ∉ rest.map (fun q => q.1) := (List.nodup_cons.mp hnd).1
      have hndr : (rest.map (fun q => q.1)).Nodup := (List.nodup_cons.mp hnd).2
      have hget1 : ∀ q ∈ rest, mapGet (closeOneSession c st p.1).sessions q.1 = some q.2 := by
        intro q hq
        have hne : q.1 ≠ p.1 := by
          intro h
          exact hnd0 (h ▸ List.mem_map_of_mem (fun q => q.1) hq)
        rw [closeOneSession_sessions_ne c st p.1 q.1 hne]
        exact hget q (by simp [hq])
      obtain ⟨iho, ihc⟩ := ih (closeOneSession c st p.1) hndr hget1
      rw [List.map_cons, List.foldl_cons]
      constructor
      · rw [iho]
        simp only [hclients1]
        by_cases hc : p.2.contains c = true
        · obtain ⟨ho1, _⟩ := closeOneSession_spec c st p.1 p.2 hget0 hc
          rw [ho1, List.flatMap_cons, if_pos hc, List.append_assoc]
        · rw [closeOneSession_not_member c st p.1 p.2 hget0 (by simpa using hc),
            List.flatMap_cons, if_neg hc, List.nil_append]
      · rw [ihc, hclients1]

lemma handleDisconnect_empty_deactivates (st : ServerState) (c code : String) (mem : List String)
    (h1 : mapGet st.sessions code = some mem)
    (h2 : mem.filter (fun x => x != c) = [])
    (hinc : List.Pairwise (fun a b => a.id < b.id) st.storage.sessions) :
    (handleDisconnect st c code).storage.getSessionByCode code = none ∨
    ∃ u, (handleDisconnect st c code).storage.getSessionByCode code = some u ∧ u.active = 0 := by
  unfold handleDisconnect
  rw [h1]
  dsimp only
  have hlen : ((mem.filter (fun x => x != c)).length == 0) = true := by rw [h2]; rfl
  rw [hlen]
  rcases hfind : st.storage.getSessionByCode code with _ | s
  · left
    simp [hfind, notify_storage]
  · right
    have hfind2 : st.storage.sessions.find? (fun x => x.sessionCode == code) = some s := hfind
    have hmem : s ∈ st.storage.sessions := List.mem_of_find?_eq_some hfind2
    have hid : st.storage.sessions.find? (fun x => x.id == s.id) = some s :=
      find?_id_self st.storage.sessions hinc s hmem
    have hdea := find?_code_after_deactivate st.storage.sessions code hinc s hfind2
    refine ⟨{ s with active := 0 }, ?_, rfl⟩
    simp only [if_true, notify_storage, hfind2, hid, MemStorage.getSessionByCode,
      MemStorage.updateSessionStatus]
    exact hdea

/-- C6: `create_session` with the code of a session present in the live
session table (an active session in the spec's sense: the live table holds
exactly the sessions that have not yet been retired) always replies
`session_created` with `success: false` ("Session code already exists") and
changes nothing; once that session is gone from the live table (it became
inactive), `create_session` with the same code succeeds and replies
`success: true`. -/
theorem C6_create_session_code_reuse (st : ServerState) (c code : String) (f : Bool) :
    ((mapGet st.sessions code).isSome = true →
      handleCreateSession st c code f =
        { st with outbox := st.outbox ++
            [(c, Envelope.sessionCreated none false (some "Session code already exists"))] })
    ∧ (mapGet st.sessions code = none →
      handleCreateSession st c code false =
        { st with
            sessions := mapSet st.sessions code [c]
            storage := (st.storage.createSession code c).2
            outbox := st.outbox ++ [(c, Envelope.sessionCreated (some code) true none)] }) := by
  constructor
  · intro h
    simp [handleCreateSession, h]
  · intro h
    simp [handleCreateSession, h]

/-- Witness for C6 at concrete states. -/
theorem C6_create_session_code_reuse_witness :
    ((mapGet wit6st.sessions "600100").isSome = true ∧
      handleCreateSession wit6st "WB" "600100" true =
        { wit6st with outbox := wit6st.outbox ++
            [("WB", Envelope.sessionCreated none false (some "Session code already exists"))] })
    ∧ (mapGet initState.sessions "600200" = none ∧
      handleCreateSession initState "WC" "600200" false =
        { initState with
            sessions := mapSet initState.sessions "600200" ["WC"]
            storage := (initState.storage.createSession "600200" "WC").2
            outbox := initState.outbox ++
              [("WC", Envelope.sessionCreated (some "600200") true none)] }) :=
  ⟨⟨by decide, (C6_create_session_code_reuse wit6st "WB" "600100" true).1 (by decide)⟩,
   ⟨by decide, (C6_create_session_code_reuse initState "WC" "600200" false).2 (by decide)⟩⟩

/-- C7: `join_session` naming a code for which no stored session is active
(nonexistent, or only inactive rows) replies `session_joined` with
`success: false` and mutates nothing: live session table, client table and
storage are untouched. -/
theorem C7_join_without_active_session_noop (st : ServerState) (j code : String)
    (h : ∀ s ∈ st.storage.sessions, s.sessionCode = code → s.active ≠ 1) :
    handleJoinSession st j code =
      { st with outbox := st.outbox ++
          [(j, Envelope.sessionJoined false none none (some "Session not found or inactive"))] } := by
  rcases hfind : st.storage.getSessionByCode code with _ | s
  · simp [handleJoinSession, hfind]
  · have hfind2 : st.storage.sessions.find? (fun x => x.sessionCode == code) = some s := hfind
    have hmem : s ∈ st.storage.sessions := List.mem_of_find?_eq_some hfind2
    have hcode : s.sessionCode = code := by
      have hpred := List.find?_some hfind2
      exact eq_of_beq hpred
    have hact : s.active ≠ 1 := h s hmem hcode
    have hbne : (s.active != 1) = true := by simp [hact]
    simp [handleJoinSession, hfind, hbne]

/-- Witness for C7 at a concrete state with one inactive stored session. -/
theorem C7_join_without_active_session_noop_witness :
    (∀ s ∈ wit7st.storage.sessions, s.sessionCode = "700100" → s.active ≠ 1) ∧
    handleJoinSession wit7st "WJ" "700100" =
      { wit7st with outbox := wit7st.outbox ++
          [("WJ", Envelope.sessionJoined false none none (some "Session not found or inactive"))] } :=
  ⟨by decide, C7_join_without_active_session_noop wit7st "WJ" "700100" (by decide)⟩

/-- C9: forwarding an `offer`, `answer` or `ice_candidate` whose `targetId`
has no live `OPEN` connection leaves the whole server state unchanged — no
reply to the sender, no table mutation. -/
theorem C9_forward_absent_target_noop (st : ServerState) (d : SignalData)
    (h : ¬ mapGet st.clients d.targetId = some true) :
    handleOffer st d = st ∧ handleAnswer st d = st ∧ handleIceCandidate st d = st := by
  refine ⟨?_, ?_, ?_⟩ <;>
    simp [handleOffer, handleAnswer, handleIceCandidate, beq_iff_eq, h]

/-- Witness for C9: the target's socket exists but is not OPEN, and also
works for a wholly absent target id. -/
theorem C9_forward_absent_target_noop_witness :
    (¬ mapGet wit9st.clients "WX" = some true) ∧
    handleOffer wit9st ⟨"sdp", "WX", none⟩ = wit9st ∧
    handleAnswer wit9st ⟨"sdp", "WX", none⟩ = wit9st ∧
    handleIceCandidate wit9st ⟨"sdp", "WX", none⟩ = wit9st :=
  ⟨by decide, C9_forward_absent_target_noop wit9st ⟨"sdp", "WX", none⟩ (by decide)⟩

/-- C10: `MemStorage.getSessionByCode` returns the earliest-created stored
session with the given code — the row of least `id`, ids being handed out in
creation order — with no regard to `active`; concretely, after the code
"100600" is reused by a second `createSession`, the lookup still resolves to
the old, now inactive, row 1 and not to the new active row 2. -/
theorem C10_getSessionByCode_earliest (m : MemStorage) (code : String)
    (hinc : List.Pairwise (fun a b => a.id < b.id) m.sessions)
    (t : StoredSession) (ht : t ∈ m.sessions) (htc : t.sessionCode = code) :
    (∃ s, m.getSessionByCode code = some s ∧ s.sessionCode = code ∧
      ∀ u ∈ m.sessions, u.sessionCode = code → s.id ≤ u.id)
    ∧ (((MemStorage.empty.createSession "100600" "WA").2.updateSessionStatus 1 0).2.createSession
        "100600" "WB").2.getSessionByCode "100600" = some ⟨1, "100600", "WA", 0⟩ := by
  constructor
  · exact find?_code_min m.sessions code hinc t ht htc
  · rfl

/-- Witness for C10 at a concrete two-row storage with a reused code. -/
theorem C10_getSessionByCode_earliest_witness :
    List.Pairwise (fun a b => a.id < b.id) wit10st.sessions ∧
    (⟨2, "100700", "WB", 1⟩ : StoredSession) ∈ wit10st.sessions ∧
    ((∃ s, wit10st.getSessionByCode "100700" = some s ∧ s.sessionCode = "100700" ∧
        ∀ u ∈ wit10st.sessions, u.sessionCode = "100700" → s.id ≤ u.id)
      ∧ (((MemStorage.empty.createSession "100600" "WA").2.updateSessionStatus 1 0).2.createSession
          "100600" "WB").2.getSessionByCode "100600" = some ⟨1, "100600", "WA", 0⟩) :=
  ⟨by decide, by decide,
    C10_getSessionByCode_earliest wit10st "100700" (by decide) ⟨2, "100700", "WB", 1⟩
      (by decide) (by decide)⟩

/-- C2 fails on the code: when `storage.createSession` throws during
`create_session`, the in-memory session set is created all the same, but the
client is acknowledged with `success: false` ("Failed to create session"),
not `success: true` as the claim states. -/
theorem C2_counterexample :
    mapGet traceC2.sessions "210000" = some ["A"] ∧
    traceC2.outbox.getLast? =
      some ("A", Envelope.sessionCreated none false (some "Failed to create session")) :=
  ⟨rfl, rfl⟩

/-- C2 amended: a `storage.createSession` failure does not roll back or block
the in-memory flow — the live session and client tables end up exactly as on
the success path and the storage is untouched — but the ack envelope differs:
`success: false` with "Failed to create session" instead of `success: true`. -/
theorem C2_amended_create_storage_failure (st : ServerState) (c code : String)
    (h : mapGet st.sessions code = none) :
    (handleCreateSession st c code true).sessions = (handleCreateSession st c code false).sessions
    ∧ (handleCreateSession st c code true).clients = (handleCreateSession st c code false).clients
    ∧ (handleCreateSession st c code true).storage = st.storage
    ∧ (handleCreateSession st c code true).outbox =
        st.outbox ++ [(c, Envelope.sessionCreated none false (some "Failed to create session"))]
    ∧ (handleCreateSession st c code false).outbox =
        st.outbox ++ [(c, Envelope.sessionCreated (some code) true none)] := by
  refine ⟨?_, ?_, ?_, ?_, ?_⟩ <;> simp [handleCreateSession, h]

/-- Witness for C2 amended at a concrete one-client state. -/
theorem C2_amended_create_storage_failure_witness :
    mapGet (onConnection initState "WF").sessions "210100" = none ∧
    ((handleCreateSession (onConnection initState "WF") "WF" "210100" true).sessions =
        (handleCreateSession (onConnection initState "WF") "WF" "210100" false).sessions
      ∧ (handleCreateSession (onConnection initState "WF") "WF" "210100" true).clients =
        (handleCreateSession (onConnection initState "WF") "WF" "210100" false).clients
      ∧ (handleCreateSession (onConnection initState "WF") "WF" "210100" true).storage =
        (onConnection initState "WF").storage
      ∧ (handleCreateSession (onConnection initState "WF") "WF" "210100" true).outbox =
        (onConnection initState "WF").outbox ++
          [("WF", Envelope.sessionCreated none false (some "Failed to create session"))]
      ∧ (handleCreateSession (onConnection initState "WF") "WF" "210100" false).outbox =
        (onConnection initState "WF").outbox ++
          [("WF", Envelope.sessionCreated (some "210100") true none)]) :=
  ⟨by decide,
    C2_amended_create_storage_failure (onConnection initState "WF") "WF" "210100" (by decide)⟩

/-- C3 fails on the code: the envelope delivered to the target of an offer is
the sender's `data` object verbatim — here with `fromId = none` — the server
never adds a `fromId` field (the handlers do not even receive the sender's
identity). -/
theorem C3_counterexample :
    traceC3.outbox.getLast? = some ("B", Envelope.offerMsg ⟨"sdp-offer", "B", none⟩) :=
  rfl

/-- C3 amended: for a connected target, `offer` / `answer` / `ice_candidate`
are forwarded with the sender's payload verbatim; any `fromId` the target
sees is whatever the sending client itself put into the payload, the server
adds nothing. -/
theorem C3_amended_verbatim_forward (st : ServerState) (d : SignalData)
    (h : mapGet st.clients d.targetId = some true) :
    (handleOffer st d).outbox = st.outbox ++ [(d.targetId, Envelope.offerMsg d)]
    ∧ (handleAnswer st d).outbox = st.outbox ++ [(d.targetId, Envelope.answerMsg d)]
    ∧ (handleIceCandidate st d).outbox =
        st.outbox ++ [(d.targetId, Envelope.iceCandidateMsg d)] := by
  refine ⟨?_, ?_, ?_⟩ <;> simp [handleOffer, handleAnswer, handleIceCandidate, h]

/-- Witness for C3 amended: two connected clients, a payload without
`fromId`. -/
theorem C3_amended_verbatim_forward_witness :
    mapGet (onConnection (onConnection initState "WA") "WB").clients "WB" = some true ∧
    ((handleOffer (onConnection (onConnection initState "WA") "WB")
        ⟨"sdp-x", "WB", none⟩).outbox =
      (onConnection (onConnection initState "WA") "WB").outbox ++
        [("WB", Envelope.offerMsg ⟨"sdp-x", "WB", none⟩)]
    ∧ (handleAnswer (onConnection (onConnection initState "WA") "WB")
        ⟨"sdp-x", "WB", none⟩).outbox =
      (onConnection (onConnection initState "WA") "WB").outbox ++
        [("WB", Envelope.answerMsg ⟨"sdp-x", "WB", none⟩)]
    ∧ (handleIceCandidate (onConnection (onConnection initState "WA") "WB")
        ⟨"sdp-x", "WB", none⟩).outbox =
      (onConnection (onConnection initState "WA") "WB").outbox ++
        [("WB", Envelope.iceCandidateMsg ⟨"sdp-x", "WB", none⟩)]) :=
  ⟨by decide,
    C3_amended_verbatim_forward (onConnection (onConnection initState "WA") "WB")
      ⟨"sdp-x", "WB", none⟩ (by decide)⟩

/-- C1 fails on the code: in `traceC1` the only member A of session "110000"
departs via transport close, yet a later `join_session` with the old code is
acknowledged `success: true` — the stored session is still `active = 1`
because the close handler, unlike `handleDisconnect`, never marks it
inactive. -/
theorem C1_counterexample :
    traceC1.outbox.getLast? =
      some ("B", Envelope.sessionJoined true (some "110000") (some "A") none) ∧
    traceC1.storage.getSessionByCode "110000" = some ⟨1, "110000", "A", 1⟩ :=
  ⟨rfl, rfl⟩

/-- C1 amended: only the explicit `disconnect` path performs the full
cleanup — after the last member of a session departs via `disconnect`, a
subsequent `join_session` naming the old code fails — whereas transport
close of the last member leaves the storage untouched (partial cleanup), so
the stored session stays active and the code remains joinable, as
`traceC1` shows concretely. -/
theorem C1_amended_disconnect_full_close_partial (st : ServerState) (c code j : String)
    (mem : List String)
    (h1 : mapGet st.sessions code = some mem)
    (h2 : mem.filter (fun x => x != c) = [])
    (hinc : List.Pairwise (fun a b => a.id < b.id) st.storage.sessions) :
    (handleJoinSession (handleDisconnect st c code) j code).outbox =
      (handleDisconnect st c code).outbox ++
        [(j, Envelope.sessionJoined false none none (some "Session not found or inactive"))]
    ∧ (onClose st c).storage = st.storage := by
  refine ⟨?_, onClose_storage st c⟩
  rcases handleDisconnect_empty_deactivates st c code mem h1 h2 hinc with hnone | ⟨u, hu, hu0⟩
  · simp [handleJoinSession, hnone]
  · have hbne : (u.active != 1) = true := by rw [hu0]; rfl
    simp [handleJoinSession, hu, hbne]

/-- Witness for C1 amended: host WA alone in session "110100". -/
theorem C1_amended_disconnect_full_close_partial_witness :
    mapGet wit1st.sessions "110100" = some ["WA"] ∧
    (["WA"].filter (fun x => x != "WA") = []) ∧
    List.Pairwise (fun a b => a.id < b.id) wit1st.storage.sessions ∧
    ((handleJoinSession (handleDisconnect wit1st "WA" "110100") "WJ" "110100").outbox =
        (handleDisconnect wit1st "WA" "110100").outbox ++
          [("WJ", Envelope.sessionJoined false none none (some "Session not found or inactive"))]
      ∧ (onClose wit1st "WA").storage = wit1st.storage) :=
  ⟨by decide, by decide, by decide,
    C1_amended_disconnect_full_close_partial wit1st "WA" "110100" "WJ" ["WA"]
      (by decide) (by decide) (by decide)⟩

/-- C4 fails on the code: when B's transport closes, the remaining member A
is notified with an envelope of type `participant_left`, not
`participant_disconnected`, and no `participant_disconnected` envelope is
produced anywhere in the run. -/
theorem C4_counterexample :
    traceC4.outbox.getLast? = some ("A", Envelope.participantLeft "B") ∧
    traceC4.outbox.filter (fun p =>
      match p.2 with
      | Envelope.participantDisconnected _ => true
      | _ => false) = [] :=
  ⟨rfl, rfl⟩

/-- C4 amended: when a client's transport closes, in every session of the
live table that the client belonged to, each remaining member with a live
OPEN socket is notified — but with an envelope of type `participant_left`
carrying the departing clientId, a different type from the
`participant_disconnected` sent by the explicit disconnect path (and absent
from the spec's recognized outbound list); sessions the client was not a
member of contribute nothing, and the client's registry entry is removed.
The only hypothesis is that the live table's codes are distinct, the JS
`Map` key invariant. -/
theorem C4_amended_close_notifies_participant_left (st : ServerState) (c : String)
    (hnd : (st.sessions.map (fun p => p.1)).Nodup) :
    (onClose st c).outbox = st.outbox ++
      (st.sessions.flatMap (fun p =>
        if p.2.contains c = true then
          ((p.2.filter (fun x => x != c)).filterMap (fun m =>
            if mapGet st.clients m == some true then
              some (m, Envelope.participantLeft c) else none))
        else []))
    ∧ (onClose st c).clients = mapDelete st.clients c := by
  obtain ⟨ho, hcl⟩ := foldl_close_spec c st.sessions st hnd
    (fun p hp => mapGet_of_nodup st.sessions hnd p hp)
  unfold onClose
  dsimp only
  exact ⟨ho, by rw [hcl]⟩

/-- Witness for C4 amended: WB, a member of both live sessions, transport-
closes; WA and WC each receive one `participant_left`. -/
theorem C4_amended_close_notifies_participant_left_witness :
    (wit4st.sessions.map (fun p => p.1)).Nodup ∧
    ((onClose wit4st "WB").outbox = wit4st.outbox ++
        (wit4st.sessions.flatMap (fun p =>
          if p.2.contains "WB" = true then
            ((p.2.filter (fun x => x != "WB")).filterMap (fun m =>
              if mapGet wit4st.clients m == some true then
                some (m, Envelope.participantLeft "WB") else none))
          else []))
      ∧ (onClose wit4st "WB").clients = mapDelete wit4st.clients "WB") :=
  ⟨by decide,
    C4_amended_close_notifies_participant_left wit4st "WB" (by decide)⟩

/-- C5 fails on the code: in `traceC5` the host A left via explicit
`disconnect` while B stayed a member, and the stored session is still
`active = 1` — the flag is only cleared when a session empties, not when the
host leaves. -/
theorem C5_counterexample :
    traceC5.storage.getSessionByCode "510000" = some ⟨1, "510000", "A", 1⟩ ∧
    mapGet traceC5.sessions "510000" = some ["B"] :=
  ⟨rfl, rfl⟩

/-- C5 amended: the stored session's `active` flag is cleared only when an
explicit `disconnect` empties the session; the host leaving while other
members remain keeps the storage (hence the flag) unchanged, and the
transport-close path never touches the storage at all. -/
theorem C5_amended_active_cleared_only_on_empty (st : ServerState) (c code : String)
    (mem : List String) :
    (onClose st c).storage = st.storage
    ∧ (mapGet st.sessions code = some mem →
        mem.filter (fun x => x != c) ≠ [] →
        (handleDisconnect st c code).storage = st.storage) := by
  refine ⟨onClose_storage st c, ?_⟩
  intro h1 h2
  unfold handleDisconnect
  rw [h1]
  dsimp only
  have hlen : ((mem.filter (fun x => x != c)).length == 0) = false := by
    rcases h3 : mem.filter (fun x => x != c) with _ | ⟨a, l⟩
    · exact absurd h3 h2
    · rfl
  rw [hlen]
  simp [notify_storage]

/-- Witness for C5 amended: host A disconnects from a two-member session. -/
theorem C5_amended_active_cleared_only_on_empty_witness :
    ((onClose wit5st "A").storage = wit5st.storage) ∧
    mapGet wit5st.sessions "510100" = some ["A", "B"] ∧
    (["A", "B"].filter (fun x => x != "A") ≠ []) ∧
    (handleDisconnect wit5st "A" "510100").storage = wit5st.storage :=
  ⟨(C5_amended_active_cleared_only_on_empty wit5st "A" "510100" ["A", "B"]).1,
   by decide, by decide,
   (C5_amended_active_cleared_only_on_empty wit5st "A" "510100" ["A", "B"]).2
     (by decide) (by decide)⟩

/-- C8 fails on the code: in `traceC8` the join succeeds (`success: true`,
`hostId = "A"`) but zero `client_joined` notifications are delivered — the
host's transport closed earlier, so `clients.get(hostId)` is absent and the
notification is skipped while the join still succeeds against the stale
active stored session. -/
theorem C8_counterexample :
    traceC8.outbox.getLast? =
      some ("B", Envelope.sessionJoined true (some "810000") (some "A") none) ∧
    traceC8.outbox.filter (fun p =>
      match p.2 with
      | Envelope.clientJoined _ _ => true
      | _ => false) = [] :=
  ⟨rfl, rfl⟩

/-- C8 amended: on a successful `join_session`, the host identity in the ack
is the stored session's `hostId` (its creator), and exactly one
`client_joined` notification is sent to that host if it has a live OPEN
connection — but zero notifications when it does not, the join succeeding
regardless. -/
theorem C8_amended_join_ack_and_host_notice (st : ServerState) (j code : String)
    (s : StoredSession)
    (hfind : st.storage.getSessionByCode code = some s) (hact : s.active = 1) :
    (handleJoinSession st j code).outbox = st.outbox ++
      (if mapGet st.clients s.hostId == some true then
        [(s.hostId, Envelope.clientJoined j code),
         (j, Envelope.sessionJoined true (some code) (some s.hostId) none)]
       else [(j, Envelope.sessionJoined true (some code) (some s.hostId) none)]) := by
  unfold handleJoinSession
  rw [hfind]
  dsimp only
  rw [hact]
  simp only [bne_self_eq_false, Bool.false_eq_true, if_false]
  by_cases hopen : (mapGet st.clients s.hostId == some true) = true
  · simp [hopen]
  · simp [hopen]

/-- Witness for C8 amended: WJ joins WH's live session. -/
theorem C8_amended_join_ack_and_host_notice_witness :
    wit8st.storage.getSessionByCode "810100" = some ⟨1, "810100", "WH", 1⟩ ∧
    (⟨1, "810100", "WH", 1⟩ : StoredSession).active = 1 ∧
    (handleJoinSession wit8st "WJ" "810100").outbox = wit8st.outbox ++
      (if mapGet wit8st.clients "WH" == some true then
        [("WH", Envelope.clientJoined "WJ" "810100"),
         ("WJ", Envelope.sessionJoined true (some "810100") (some "WH") none)]
       else [("WJ", Envelope.sessionJoined true (some "810100") (some "WH") none)]) :=
  ⟨by decide, rfl,
    C8_amended_join_ack_and_host_notice wit8st "WJ" "810100" ⟨1, "810100", "WH", 1⟩
      (by decide) rfl⟩

end ScreenShareCast
